import Mathlib

/-!
Shallow embedding of src/main.py, a market equilibrium script: power-law
demand and supply curves, the equilibrium residual handed to the SciPy
root solver fsolve, analytic slopes, arc elasticity of the raw sample,
and the subsidy scenario. Prices, quantities and fitted parameters are
modelled as real numbers; fsolve is modelled abstractly through
hypotheses stating that a returned price is a root (exact or within a
tolerance) of the residual function the script actually passes to it.
-/

namespace MarketModel

/-- Demand curve (main.py line 11): a * p ** (-b). -/
noncomputable def demand_func (p a b : ℝ) : ℝ := a * p ^ (-b)

/-- Supply curve (line 15): c * p ** d. -/
noncomputable def supply_func (p c d : ℝ) : ℝ := c * p ^ d

/-- Equilibrium residual (line 20): Qs - Qd. -/
noncomputable def equilibrium (p a_demand b_demand c_supply d_supply : ℝ) : ℝ :=
  supply_func p c_supply d_supply - demand_func p a_demand b_demand

/-- Analytic demand slope (line 31): -a * b * p ** (-(b + 1)). -/
noncomputable def demand_derivative (p a b : ℝ) : ℝ := -a * b * p ^ (-(b + 1))

/-- Analytic supply slope (line 35): c * d * p ** (d - 1). -/
noncomputable def supply_derivative (p c d : ℝ) : ℝ := c * d * p ^ (d - 1)

/-- Arc elasticity (line 43): midpoint percentage change in quantity over
midpoint percentage change in price. -/
noncomputable def arc_elasticity (Q1 Q2 P1 P2 : ℝ) : ℝ :=
  ((Q2 - Q1) / ((Q2 + Q1) / 2)) / ((P2 - P1) / ((P2 + P1) / 2))

/-- Supply curve under a per-unit subsidy (line 53): the original supply
curve evaluated at p - subsidy. -/
noncomputable def adjusted_supply_func (p subsidy c d : ℝ) : ℝ :=
  supply_func (p - subsidy) c d

/-- Sample prices (line 58). -/
noncomputable def pricesData : List ℝ :=
  [1, 1.25, 1.57, 1.81, 2.09, 2.45, 2.8, 3.19, 3.58, 3.85, 4.5, 5]

/-- Sample demand quantities (line 59). -/
noncomputable def demandData : List ℝ :=
  [280, 245, 190, 141, 135, 110, 95, 65, 58, 44, 21, 10]

/-- Sample supply quantities (line 60). -/
noncomputable def supplyData : List ℝ :=
  [5, 20, 51, 89, 120, 153, 180, 201, 215, 228, 240, 248]

/-- Residual function passed to fsolve at line 83. -/
noncomputable def equilibriumResidual (a b c d : ℝ) : ℝ → ℝ :=
  fun p => equilibrium p a b c d

/-- Equilibrium quantity (line 84): the supply curve evaluated at the
solved price. -/
noncomputable def equilibrium_quantity (P c_supply d_supply : ℝ) : ℝ :=
  supply_func P c_supply d_supply

/-- First demand observation (line 96, iloc 0). -/
noncomputable def Q1_demand : ℝ := demandData.getD 0 0

/-- Last demand observation (line 96, iloc -1). -/
noncomputable def Q2_demand : ℝ := demandData.getD 11 0

/-- First supply observation (line 97, iloc 0). -/
noncomputable def Q1_supply : ℝ := supplyData.getD 0 0

/-- Last supply observation (line 97, iloc -1). -/
noncomputable def Q2_supply : ℝ := supplyData.getD 11 0

/-- First price observation (line 98, iloc 0). -/
noncomputable def P1 : ℝ := pricesData.getD 0 0

/-- Last price observation (line 98, iloc -1). -/
noncomputable def P2 : ℝ := pricesData.getD 11 0

/-- Arc elasticity of demand (line 101). -/
noncomputable def arc_elasticity_demand : ℝ := arc_elasticity Q1_demand Q2_demand P1 P2

/-- Arc elasticity of supply (line 102). -/
noncomputable def arc_elasticity_supply : ℝ := arc_elasticity Q1_supply Q2_supply P1 P2

/-- The subsidy of the scenario (line 108). -/
noncomputable def subsidy : ℝ := 0.5

/-- The lambda passed to fsolve at line 109. It calls the original
equilibrium residual with the original fitted parameters; it never
references adjusted_supply_func and does not depend on the subsidy. -/
noncomputable def newEquilibriumResidual (a b c d : ℝ) : ℝ → ℝ :=
  fun p => equilibrium p a b c d

/-- New equilibrium quantity (line 110): the adjusted supply curve
evaluated at the newly solved price. -/
noncomputable def new_equilibrium_quantity (newP s c d : ℝ) : ℝ :=
  adjusted_supply_func newP s c d

/-- Consumer price (line 113). -/
noncomputable def consumer_price (new_equilibrium_price : ℝ) : ℝ := new_equilibrium_price

/-- Producer price (line 114). -/
noncomputable def producer_price (new_equilibrium_price s : ℝ) : ℝ :=
  new_equilibrium_price - s

/-- Claim C6: the consumer price is the new equilibrium price, the producer
price is the new equilibrium price minus the subsidy, and for a positive
subsidy the consumer price exceeds the producer price by exactly the
subsidy amount. -/
theorem C6_price_wedge (newP s : ℝ) (hs : 0 < s) :
    consumer_price newP = newP ∧
    producer_price newP s = newP - s ∧
    consumer_price newP - producer_price newP s = s ∧
    producer_price newP s < consumer_price newP := by
  refine ⟨rfl, rfl, by simp [consumer_price, producer_price], ?_⟩
  simpa [consumer_price, producer_price] using sub_lt_self newP hs

/-- Witness for C6 at newP = 3 and s = 1 / 2. -/
theorem C6_witness :
    consumer_price 3 = 3 ∧
    producer_price 3 (1 / 2) = 3 - 1 / 2 ∧
    consumer_price 3 - producer_price 3 (1 / 2) = 1 / 2 ∧
    producer_price 3 (1 / 2) < consumer_price 3 :=
  C6_price_wedge 3 (1 / 2) (by norm_num)

/-- Claim C4: arc_elasticity implements the midpoint formula, and the script
applies it to the first and last demand observations and to the first and
last supply observations of the raw sample data (demand 280 and 10, supply
5 and 248, prices 1 and 5). -/
theorem C4_arc_elasticity_formula (q1 q2 p1 p2 : ℝ) :
    arc_elasticity q1 q2 p1 p2 =
      ((q2 - q1) / ((q2 + q1) / 2)) / ((p2 - p1) / ((p2 + p1) / 2)) ∧
    arc_elasticity_demand = arc_elasticity 280 10 1 5 ∧
    arc_elasticity_supply = arc_elasticity 5 248 1 5 := by
  refine ⟨rfl, ?_, ?_⟩ <;>
    simp [arc_elasticity_demand, arc_elasticity_supply, Q1_demand, Q2_demand,
      Q1_supply, Q2_supply, P1, P2, demandData, supplyData, pricesData]

/-- Claim C5: arc elasticity is invariant under scaling all quantities by a
positive constant and under scaling all prices by a positive constant. -/
theorem C5_scale_invariance (k q1 q2 p1 p2 : ℝ) (hk : 0 < k)
    (hQ : q1 + q2 ≠ 0) (hP : p1 + p2 ≠ 0) (hdP : p2 - p1 ≠ 0) :
    arc_elasticity (k * q1) (k * q2) p1 p2 = arc_elasticity q1 q2 p1 p2 ∧
    arc_elasticity q1 q2 (k * p1) (k * p2) = arc_elasticity q1 q2 p1 p2 := by
  have hk0 : k ≠ 0 := ne_of_gt hk
  constructor
  · unfold arc_elasticity
    rw [show k * q2 - k * q1 = k * (q2 - q1) by ring,
      show (k * q2 + k * q1) / 2 = k * ((q2 + q1) / 2) by ring,
      mul_div_mul_left _ _ hk0]
  · unfold arc_elasticity
    rw [show k * p2 - k * p1 = k * (p2 - p1) by ring,
      show (k * p2 + k * p1) / 2 = k * ((p2 + p1) / 2) by ring,
      mul_div_mul_left _ _ hk0]

/-- Witness for C5 at k = 2, quantities 1 and 3, prices 1 and 2. -/
theorem C5_witness :
    arc_elasticity (2 * 1) (2 * 3) 1 2 = arc_elasticity 1 3 1 2 ∧
    arc_elasticity 1 3 (2 * 1) (2 * 2) = arc_elasticity 1 3 1 2 :=
  C5_scale_invariance 2 1 3 1 2 (by norm_num) (by norm_num) (by norm_num) (by norm_num)

/-- Claim C7: the two slope functions compute exactly the stated closed
forms, and at any positive price those values are the exact analytic
derivatives of the demand and supply curves with respect to price. -/
theorem C7_analytic_derivatives (p a b c d : ℝ) (hp : 0 < p) :
    demand_derivative p a b = -a * b * p ^ (-(b + 1)) ∧
    supply_derivative p c d = c * d * p ^ (d - 1) ∧
    HasDerivAt (fun x : ℝ => demand_func x a b) (demand_derivative p a b) p ∧
    HasDerivAt (fun x : ℝ => supply_func x c d) (supply_derivative p c d) p := by
  refine ⟨rfl, rfl, ?_, ?_⟩
  · have hbase : HasDerivAt (fun x : ℝ => x ^ (-b)) (-b * p ^ (-b - 1)) p :=
      Real.hasDerivAt_rpow_const (Or.inl (ne_of_gt hp))
    have hmul : HasDerivAt (fun x : ℝ => a * x ^ (-b)) (a * (-b * p ^ (-b - 1))) p :=
      hbase.const_mul a
    have hval : demand_derivative p a b = a * (-b * p ^ (-b - 1)) := by
      unfold demand_derivative
      rw [show -(b + 1) = -b - 1 by ring]
      generalize p ^ (-b - 1 : ℝ) = q
      ring
    rw [hval]
    exact hmul
  · have hbase : HasDerivAt (fun x : ℝ => x ^ d) (d * p ^ (d - 1)) p :=
      Real.hasDerivAt_rpow_const (Or.inl (ne_of_gt hp))
    have hmul : HasDerivAt (fun x : ℝ => c * x ^ d) (c * (d * p ^ (d - 1))) p :=
      hbase.const_mul c
    have hval : supply_derivative p c d = c * (d * p ^ (d - 1)) := by
      unfold supply_derivative
      generalize p ^ (d - 1 : ℝ) = q
      ring
    rw [hval]
    exact hmul

/-- Witness for C7 at p = 2 and parameters a = b = c = d = 1. -/
theorem C7_witness :
    demand_derivative 2 1 1 = -1 * 1 * (2 : ℝ) ^ (-((1 : ℝ) + 1)) ∧
    supply_derivative 2 1 1 = 1 * 1 * (2 : ℝ) ^ ((1 : ℝ) - 1) ∧
    HasDerivAt (fun x : ℝ => demand_func x 1 1) (demand_derivative 2 1 1) 2 ∧
    HasDerivAt (fun x : ℝ => supply_func x 1 1) (supply_derivative 2 1 1) 2 :=
  C7_analytic_derivatives 2 1 1 1 1 (by norm_num)

/-- Claim C10: at any positive price with strictly positive parameters the
demand slope is strictly negative and the supply slope strictly positive,
so the printed comparison supply_slope > demand_slope holds for every such
parameterization, whatever the magnitudes. -/
theorem C10_slope_signs (p a b c d : ℝ) (hp : 0 < p)
    (ha : 0 < a) (hb : 0 < b) (hc : 0 < c) (hd : 0 < d) :
    demand_derivative p a b < 0 ∧ 0 < supply_derivative p c d ∧
    demand_derivative p a b < supply_derivative p c d := by
  have hq : 0 < p ^ (-(b + 1) : ℝ) := Real.rpow_pos_of_pos hp _
  have hr : 0 < p ^ (d - 1 : ℝ) := Real.rpow_pos_of_pos hp _
  have h1 : 0 < a * b * p ^ (-(b + 1) : ℝ) := mul_pos (mul_pos ha hb) hq
  have h2 : 0 < c * d * p ^ (d - 1 : ℝ) := mul_pos (mul_pos hc hd) hr
  unfold demand_derivative supply_derivative
  refine ⟨by nlinarith, by nlinarith, by nlinarith⟩

/-- Witness for C10 at p = a = b = c = d = 1. -/
theorem C10_witness :
    demand_derivative 1 1 1 < 0 ∧ 0 < supply_derivative 1 1 1 ∧
    demand_derivative 1 1 1 < supply_derivative 1 1 1 :=
  C10_slope_signs 1 1 1 1 1 (by norm_num) (by norm_num) (by norm_num) (by norm_num)
    (by norm_num)

/-- Counterexample to claim C2: with demand parameters a = 1, b = 5 and
supply parameters c = 1, d = 1 the price 1 is an equilibrium price (both
curves give quantity 1 there), the demand slope is -5 and the supply slope
is 1, so the sign conditions of the claim hold and the signed comparison
printed by the program is true, yet the magnitude condition is false: the
claimed equivalence fails at an equilibrium price. -/
theorem C2_counterexample :
    equilibrium 1 1 5 1 1 = 0 ∧
    demand_derivative 1 1 5 < 0 ∧ 0 < supply_derivative 1 1 1 ∧
    ¬ ((supply_derivative 1 1 1 > demand_derivative 1 1 5) ↔
      (|supply_derivative 1 1 1| > |demand_derivative 1 1 5|)) := by
  have h0 : equilibrium 1 1 5 1 1 = 0 := by
    unfold equilibrium supply_func demand_func
    rw [Real.one_rpow, Real.one_rpow]
    norm_num
  have h1 : demand_derivative 1 1 5 = -5 := by
    unfold demand_derivative
    rw [Real.one_rpow]
    norm_num
  have h2 : supply_derivative 1 1 1 = 1 := by
    unfold supply_derivative
    rw [Real.one_rpow]
    norm_num
  rw [h0, h1, h2]
  have h3 : |(-5 : ℝ)| = 5 := by
    rw [abs_of_neg (by norm_num : (-5 : ℝ) < 0)]
    norm_num
  have h4 : |(1 : ℝ)| = 1 := abs_one
  rw [h3, h4]
  norm_num

/-- Claim C2 as amended: at every equilibrium price at which the demand
slope is negative and the supply slope positive, the signed comparison
supply_slope > demand_slope holds unconditionally; it is therefore implied
by the textbook magnitude condition, but not equivalent to it. -/
theorem C2_signed_vs_magnitude (p a b c d : ℝ)
    (heq : equilibrium p a b c d = 0)
    (hneg : demand_derivative p a b < 0) (hpos : 0 < supply_derivative p c d) :
    supply_derivative p c d > demand_derivative p a b ∧
    (|supply_derivative p c d| > |demand_derivative p a b| →
      supply_derivative p c d > demand_derivative p a b) := by
  have h := lt_trans hneg hpos
  exact ⟨h, fun _ => h⟩

/-- Witness for the amended C2 at the equilibrium price 2 of the
parameters a = 8, b = 1, c = 2, d = 1. -/
theorem C2_witness :
    supply_derivative 2 2 1 > demand_derivative 2 8 1 ∧
    (|supply_derivative 2 2 1| > |demand_derivative 2 8 1| →
      supply_derivative 2 2 1 > demand_derivative 2 8 1) := by
  have heq : equilibrium 2 8 1 2 1 = 0 := by
    unfold equilibrium supply_func demand_func
    rw [Real.rpow_one, Real.rpow_neg_one]
    norm_num
  have hq : (0 : ℝ) < (2 : ℝ) ^ (-((1 : ℝ) + 1)) :=
    Real.rpow_pos_of_pos (by norm_num) _
  have hr : (0 : ℝ) < (2 : ℝ) ^ ((1 : ℝ) - 1) :=
    Real.rpow_pos_of_pos (by norm_num) _
  have hneg : demand_derivative 2 8 1 < 0 := by
    unfold demand_derivative
    nlinarith
  have hpos : 0 < supply_derivative 2 2 1 := by
    unfold supply_derivative
    nlinarith
  exact C2_signed_vs_magnitude 2 8 1 2 1 heq hneg hpos

/-- Claim C3: the equilibrium residual is the supply quantity minus the
demand quantity; when the solver returns a price whose residual is within
the tolerance, the fitted demand and supply quantities agree within that
tolerance at that price, and the reported equilibrium quantity is the
supply curve evaluated there. -/
theorem C3_equilibrium_residual (a b c d P eps p : ℝ)
    (hconv : |equilibrium P a b c d| ≤ eps) :
    equilibrium p a b c d = supply_func p c d - demand_func p a b ∧
    |demand_func P a b - supply_func P c d| ≤ eps ∧
    equilibrium_quantity P c d = supply_func P c d := by
  refine ⟨rfl, ?_, rfl⟩
  rw [abs_sub_comm]
  simpa [equilibrium] using hconv

/-- Witness for C3: with a = 8, b = 1, c = 2, d = 1 the price 2 is an exact
root of the residual, so the statement holds there with tolerance 0. -/
theorem C3_witness :
    equilibrium 3 8 1 2 1 = supply_func 3 2 1 - demand_func 3 8 1 ∧
    |demand_func 2 8 1 - supply_func 2 2 1| ≤ 0 ∧
    equilibrium_quantity 2 2 1 = supply_func 2 2 1 := by
  refine C3_equilibrium_residual 8 1 2 1 2 0 3 ?_
  have h : equilibrium 2 8 1 2 1 = 0 := by
    unfold equilibrium supply_func demand_func
    rw [Real.rpow_one, Real.rpow_neg_one]
    norm_num
  rw [h]
  simp

/-- On positive prices the equilibrium residual is strictly increasing when
all four fitted parameters are positive: the supply term grows and the
demand term shrinks with price, so the residual has at most one positive
root. -/
theorem equilibrium_strictMonoOn (a b c d : ℝ)
    (ha : 0 < a) (hb : 0 < b) (hc : 0 < c) (hd : 0 < d) :
    StrictMonoOn (fun p => equilibrium p a b c d) (Set.Ioi (0 : ℝ)) := by
  intro x hx y hy hxy
  simp only [Set.mem_Ioi] at hx hy
  unfold equilibrium supply_func demand_func
  have hsup : c * x ^ d < c * y ^ d :=
    mul_lt_mul_of_pos_left (Real.rpow_lt_rpow (le_of_lt hx) hxy hd) hc
  have hdem : a * y ^ (-b) < a * x ^ (-b) := by
    have h1 : y ^ (-b) < x ^ (-b) := by
      rw [Real.rpow_neg (le_of_lt hx), Real.rpow_neg (le_of_lt hy)]
      have hxb : 0 < x ^ (b : ℝ) := Real.rpow_pos_of_pos hx b
      have hyb : x ^ (b : ℝ) < y ^ (b : ℝ) := Real.rpow_lt_rpow (le_of_lt hx) hxy hb
      exact inv_strictAnti₀ hxb hyb
    exact mul_lt_mul_of_pos_left h1 ha
  dsimp only
  linarith

/-- Claim C8: with a zero subsidy the adjusted supply curve coincides with
the original one, and the price solved from the residual of line 109 (and
its quantity from line 110) reproduce the original equilibrium: for
positive parameters the residual is strictly monotone on positive prices,
so the two solved roots coincide. -/
theorem C8_zero_subsidy (a b c d P0 P1 q : ℝ)
    (ha : 0 < a) (hb : 0 < b) (hc : 0 < c) (hd : 0 < d)
    (hP0 : 0 < P0) (hP1 : 0 < P1)
    (hroot0 : equilibriumResidual a b c d P0 = 0)
    (hroot1 : newEquilibriumResidual a b c d P1 = 0) :
    adjusted_supply_func q 0 c d = supply_func q c d ∧
    P1 = P0 ∧
    new_equilibrium_quantity P1 0 c d = equilibrium_quantity P0 c d := by
  have hmono := equilibrium_strictMonoOn a b c d ha hb hc hd
  have heq : P1 = P0 := by
    apply hmono.injOn (Set.mem_Ioi.mpr hP1) (Set.mem_Ioi.mpr hP0)
    show equilibrium P1 a b c d = equilibrium P0 a b c d
    rw [show equilibrium P1 a b c d = 0 from hroot1,
      show equilibrium P0 a b c d = 0 from hroot0]
  refine ⟨by simp [adjusted_supply_func], heq, ?_⟩
  rw [heq]
  simp [new_equilibrium_quantity, adjusted_supply_func, equilibrium_quantity]

/-- Witness for C8 with a = 8, b = 1, c = 2, d = 1, where both residuals
vanish exactly at price 2. -/
theorem C8_witness :
    adjusted_supply_func 3 0 2 1 = supply_func 3 2 1 ∧
    (2 : ℝ) = 2 ∧
    new_equilibrium_quantity 2 0 2 1 = equilibrium_quantity 2 2 1 := by
  have h : equilibrium 2 8 1 2 1 = 0 := by
    unfold equilibrium supply_func demand_func
    rw [Real.rpow_one, Real.rpow_neg_one]
    norm_num
  exact C8_zero_subsidy 8 1 2 1 2 2 3 (by norm_num) (by norm_num) (by norm_num)
    (by norm_num) (by norm_num) (by norm_num) h h

/-- Claim C1 evaluated on the code: the lambda of line 109 is the original
equilibrium residual for every price (it never applies the subsidy shift),
and at its exact root 2 under parameters a = 8, b = 1, c = 2, d = 1 with
subsidy one half, the demand quantity does not equal the adjusted supply
quantity: demand gives 4 while supply at price minus subsidy gives 3. -/
theorem C1_code_eval :
    (∀ p, newEquilibriumResidual 8 1 2 1 p = equilibriumResidual 8 1 2 1 p) ∧
    newEquilibriumResidual 8 1 2 1 2 = 0 ∧
    demand_func 2 8 1 = 4 ∧
    adjusted_supply_func 2 (1 / 2) 2 1 = 3 ∧
    demand_func 2 8 1 ≠ adjusted_supply_func 2 (1 / 2) 2 1 := by
  have h1 : demand_func 2 8 1 = 4 := by
    unfold demand_func
    rw [Real.rpow_neg_one]
    norm_num
  have h2 : adjusted_supply_func 2 (1 / 2) 2 1 = 3 := by
    unfold adjusted_supply_func supply_func
    rw [Real.rpow_one]
    norm_num
  refine ⟨fun p => rfl, ?_, h1, h2, ?_⟩
  · show equilibrium 2 8 1 2 1 = 0
    unfold equilibrium supply_func demand_func
    rw [Real.rpow_one, Real.rpow_neg_one]
    norm_num
  · rw [h1, h2]
    norm_num

end MarketModel
